import Mathlib

/-!
Shallow embedding of the `validateMermaid` tool handler from
`src/main.ts` of the mcp-mermaid-validator repository, together with
theorems settling the specification claims about it.

Modelling conventions:
* Node `Buffer` values are modelled as `List Nat` byte sequences.
* The svg branch of the handler accumulates `data.toString()` into the
  string `svgContent` and later recovers its bytes with
  `Buffer.from(svgContent)`; since UTF-8 decoding followed by encoding is
  the identity on the well-formed text the engine emits on that path, the
  accumulated string is modelled directly by its byte sequence.
* JavaScript integer stringification (the template `${code}`) is modelled
  by the executable `intToStr`.
* `String.prototype.split` with the fixed separator
  `"\n\nError details:\n"` is modelled by the executable `splitOnSep`.
-/

namespace MermaidValidator

/-- The output format selector, `z.enum(["svg", "png"])` in `main.ts`. -/
inductive Format
  | svg
  | png
deriving DecidableEq, Repr

/-- The string names of the two formats, as they appear in the zod enum. -/
def formatStr : Format → String
  | Format.svg => "svg"
  | Format.png => "png"

/-- Model of the zod schema `z.enum(["svg","png"]).optional().default("png")`:
an absent field yields the default `png`, the two enum strings are accepted,
anything else is rejected. -/
def parseFormat : Option String → Option Format
  | none => some Format.png
  | some s =>
      if s = "svg" then some Format.svg
      else if s = "png" then some Format.png
      else none

/-- The argument vector built in `main.ts` lines 28-41: the base arguments
name the package, select `-` (stdin) as input and `-` (stdout) as output and
pass the format, and for png the transparent-background flag is pushed. -/
def mmdcArgs (format : Format) : List String :=
  let args := ["@mermaid-js/mermaid-cli", "-i", "-", "-o", "-", "-e", formatStr format]
  if format = Format.png then args ++ ["-b", "transparent"] else args

/-- An observable side-effecting action of the handler, in program order:
spawning the subprocess (line 43), writing the diagram to its stdin
(line 46), closing stdin (line 47), and awaiting process completion
(line 67). -/
inductive Action
  | spawn (cmd : String) (args : List String)
  | stdinWrite (payload : String)
  | stdinEnd
  | awaitProcess
deriving DecidableEq, Repr

/-- The sequence of subprocess-facing actions the handler performs for one
call, following the statement order of `main.ts` lines 43-67. -/
def handlerTrace (diagram : String) (format : Format) : List Action :=
  [Action.spawn "npx" (mmdcArgs format),
   Action.stdinWrite diagram,
   Action.stdinEnd,
   Action.awaitProcess]

/-- A data event on one of the two readable subprocess channels: a chunk
of bytes on stdout, or a chunk of text on stderr.  The handler registers
one listener per channel (`main.ts` lines 54-64); a run of the subprocess
presents the two channels' chunks in some arbitrary interleaving. -/
inductive StreamEvent
  | stdoutData (bytes : List Nat)
  | stderrData (text : String)
deriving DecidableEq, Repr

/-- How the subprocess session ends: the `close` event with an exit code, or
the spawn-level `error` event with an error message (`main.ts` lines 68-86). -/
inductive Termination
  | close (code : Int)
  | procError (msg : String)
deriving DecidableEq, Repr

/-- One subprocess session as observed by the handler: the interleaved data
events of the two channels, followed by the termination event. -/
structure Session where
  events : List StreamEvent
  termination : Termination
deriving DecidableEq, Repr

/-- The handler's accumulator state (`main.ts` lines 50-52): `outputChunks`
collects stdout buffers in the png branch, `svgContent` accumulates stdout
text in the svg branch (modelled by its bytes), and `errorOutput`
accumulates stderr text. -/
structure Accum where
  outputChunks : List (List Nat)
  svgContent : List Nat
  errorOutput : String
deriving DecidableEq, Repr

/-- The initial accumulator: empty chunk list, empty string, empty string. -/
def initAccum : Accum := ⟨[], [], ""⟩

/-- One step of the two data listeners (`main.ts` lines 54-64): a stdout
chunk goes to `svgContent` when the format is svg and is pushed onto
`outputChunks` otherwise; a stderr chunk is appended to `errorOutput`. -/
def step (format : Format) (a : Accum) : StreamEvent → Accum
  | StreamEvent.stdoutData data =>
      if format = Format.svg then { a with svgContent := a.svgContent ++ data }
      else { a with outputChunks := a.outputChunks ++ [data] }
  | StreamEvent.stderrData data => { a with errorOutput := a.errorOutput ++ data }

/-- Processing of all data events of a session, in arrival order. -/
def runEvents (format : Format) (events : List StreamEvent) : Accum :=
  events.foldl (step format) initAccum

/-- The stdout chunks of an event interleaving, in order. -/
def stdoutProj : List StreamEvent → List (List Nat)
  | [] => []
  | StreamEvent.stdoutData b :: rest => b :: stdoutProj rest
  | StreamEvent.stderrData _ :: rest => stdoutProj rest

/-- The concatenated stderr text of an event interleaving, in order. -/
def stderrProj : List StreamEvent → String
  | [] => ""
  | StreamEvent.stdoutData _ :: rest => stderrProj rest
  | StreamEvent.stderrData t :: rest => t ++ stderrProj rest

/-- Model of JavaScript number stringification for a natural number:
its decimal digits.  The first argument is fuel, always sufficient. -/
def natDigitsAux : Nat → Nat → List Char
  | 0, _ => []
  | fuel + 1, n =>
      if n < 10 then [Char.ofNat (48 + n)]
      else natDigitsAux fuel (n / 10) ++ [Char.ofNat (48 + n % 10)]

/-- Decimal rendering of a natural number. -/
def natToStr (n : Nat) : String := String.mk (natDigitsAux (n + 1) n)

/-- Model of the JavaScript template interpolation of the integer exit
code: decimal digits, with a leading minus sign when negative. -/
def intToStr : Int → String
  | Int.ofNat n => natToStr n
  | Int.negSucc n => "-" ++ natToStr (n + 1)

/-- The base64 alphabet, in order. -/
def base64Alphabet : List Char :=
  "ABCDEFGHIJKLMNOPQRSTUVWXYZabcdefghijklmnopqrstuvwxyz0123456789+/".data

/-- The base64 character of a 6-bit group. -/
def b64Char (n : Nat) : Char := base64Alphabet.getD n 'A'

/-- Model of `Buffer.prototype.toString("base64")`: standard base64 with
`=` padding, three input bytes per four output characters. -/
def base64Encode : List Nat → String
  | [] => ""
  | [b0] =>
      String.mk [b64Char (b0 / 4), b64Char (b0 % 4 * 16), '=', '=']
  | [b0, b1] =>
      String.mk [b64Char (b0 / 4), b64Char (b0 % 4 * 16 + b1 / 16),
                 b64Char (b1 % 16 * 4), '=']
  | b0 :: b1 :: b2 :: rest =>
      String.mk [b64Char (b0 / 4), b64Char (b0 % 4 * 16 + b1 / 16),
                 b64Char (b1 % 16 * 4 + b2 / 64), b64Char (b2 % 64)]
        ++ base64Encode rest

/-- The separator string used in `main.ts` lines 74 and 128-130 to carry
stderr details inside the rejection error message. -/
def sepChars : List Char := "\n\nError details:\n".data

/-- Model of `String.prototype.split` with separator `sepChars`: scan the
string, cutting at each occurrence of the separator.  The second argument
accumulates the current piece. -/
def splitOnSepAux : List Char → List Char → List (List Char)
  | [], acc => [acc]
  | c :: rest, acc =>
      if sepChars.isPrefixOf (c :: rest) then
        acc :: splitOnSepAux (rest.drop (sepChars.length - 1)) []
      else
        splitOnSepAux rest (acc ++ [c])
termination_by s _ => s.length
decreasing_by
  · simp only [List.length_cons]
    calc (rest.drop (sepChars.length - 1)).length ≤ rest.length := by
          rw [List.length_drop]
          omega
      _ < rest.length + 1 := Nat.lt_succ_self _
  · simp [Nat.lt_succ_self]

/-- `String.prototype.split` on the fixed separator, as used at
`main.ts` line 128. -/
def splitOnSep (s : String) : List String :=
  (splitOnSepAux s.data []).map String.mk

/-- The error message the `close` listener rejects with on a nonzero exit
code (`main.ts` lines 72-76): the exit code interpolated into a fixed
sentence, with the captured stderr text appended after the separator when
it is non-empty (JavaScript string truthiness). -/
def closeErrorMessage (code : Int) (errorOutput : String) : String :=
  "mermaid-cli process exited with code " ++ intToStr code ++
    (if errorOutput = "" then "" else "\n\nError details:\n" ++ errorOutput)

/-- The error message the `error` listener rejects with on a spawn-level
error (`main.ts` lines 80-86): the error's own message, with the captured
stderr text appended after the separator when it is non-empty. -/
def procErrorMessage (msg : String) (errorOutput : String) : String :=
  msg ++ (if errorOutput = "" then "" else "\n\nError details:\n" ++ errorOutput)

/-- The promise of `main.ts` lines 67-87: it resolves when the process
closes with exit code 0, rejects with `closeErrorMessage` on a nonzero
exit code, and rejects with `procErrorMessage` on a spawn-level error. -/
def processCompletion (errorOutput : String) : Termination → Except String Unit
  | Termination.close code =>
      if code = 0 then Except.ok ()
      else Except.error (closeErrorMessage code errorOutput)
  | Termination.procError msg => Except.error (procErrorMessage msg errorOutput)

/-- One content block of the tool response: a text block or a base64 image
block with a MIME type. -/
inductive ContentBlock
  | text (text : String)
  | image (data : String) (mimeType : String)
deriving DecidableEq, Repr

/-- The successful response (`main.ts` lines 89-119): a confirmation text
block followed by an image block, base64-encoding `svgContent`'s bytes
with the svg MIME type for svg, and the concatenation of `outputChunks`
with the png MIME type otherwise. -/
def validResult (format : Format) (a : Accum) : List ContentBlock :=
  if format = Format.svg then
    [ContentBlock.text "Mermaid diagram is valid",
     ContentBlock.image (base64Encode a.svgContent) "image/svg+xml"]
  else
    [ContentBlock.text "Mermaid diagram is valid",
     ContentBlock.image (base64Encode a.outputChunks.flatten) "image/png"]

/-- The inner catch (`main.ts` lines 120-153): split the rejection message
on the separator; the first piece is `mainError`, the remaining pieces are
the stderr details.  The response opens with the fixed rejection text and
`mainError`, and carries a third text block holding the rejoined details
when any were present. -/
def invalidResult (errorMessage : String) : List ContentBlock :=
  let parts := splitOnSep errorMessage
  let mainError := parts.headD ""
  let errorDetails := parts.tail
  let errorContent := [ContentBlock.text "Mermaid diagram is invalid",
                       ContentBlock.text mainError]
  if errorDetails.length > 0 then
    errorContent ++
      [ContentBlock.text ("Detailed error output:\n" ++
          String.intercalate "\n" errorDetails)]
  else errorContent

/-- The outer catch (`main.ts` lines 155-164): a single text block built
from the caught error's message. -/
def systemErrorResult (msg : String) : List ContentBlock :=
  [ContentBlock.text ("Error processing Mermaid diagram: " ++ msg)]

set_option linter.unusedVariables false in
/-- The whole `validateMermaid` handler for one subprocess session:
accumulate the channel data, await completion, and answer with the valid
response on resolution or the inner-catch response on rejection.  Every
rejection the promise can produce is an `Error`, so the inner catch's
`instanceof Error` test always takes the `.message` branch; the inner
catch itself cannot throw, so the outer catch's `systemErrorResult` is
never reached from this path. -/
def validateMermaid (diagram : String) (format : Format) (s : Session) :
    List ContentBlock :=
  let a := runEvents format s.events
  match processCompletion a.errorOutput s.termination with
  | Except.ok () => validResult format a
  | Except.error errorMessage => invalidResult errorMessage

/-- Outcome classification of a response, by its shape. -/
inductive OutcomeClass
  | valid
  | invalid
  | systemError
deriving DecidableEq, Repr

/-- Classify a response list by its leading text block. -/
def classifyResult (c : List ContentBlock) : OutcomeClass :=
  match c with
  | ContentBlock.text t :: _ =>
      if t = "Mermaid diagram is valid" then OutcomeClass.valid
      else if t = "Mermaid diagram is invalid" then OutcomeClass.invalid
      else OutcomeClass.systemError
  | _ => OutcomeClass.systemError

/-- The MIME type the spec associates with each format. -/
def mimeOf : Format → String
  | Format.svg => "image/svg+xml"
  | Format.png => "image/png"

/-- The Valid response shape of the spec: a text confirmation block
followed by an image block. -/
def isValidShape (r : List ContentBlock) : Prop :=
  ∃ data mime,
    r = [ContentBlock.text "Mermaid diagram is valid", ContentBlock.image data mime]

/-- The Invalid response shape of the spec: the fixed rejection text plus
one or two further diagnostic text blocks. -/
def isInvalidShape (r : List ContentBlock) : Prop :=
  ∃ m, r = [ContentBlock.text "Mermaid diagram is invalid", ContentBlock.text m] ∨
    ∃ dd, r = [ContentBlock.text "Mermaid diagram is invalid",
               ContentBlock.text m, ContentBlock.text dd]

/-- The SystemError response shape of the spec: a single text block. -/
def isSystemErrorShape (r : List ContentBlock) : Prop :=
  ∃ t, r = [ContentBlock.text t]

/-! ### String and digit helper lemmas -/

theorem string_ne_empty_of_data_ne_nil {s : String} (h : s.data ≠ []) : s ≠ "" := by
  intro he
  exact h (by rw [he])

theorem natDigitsAux_no_newline (fuel : Nat) : ∀ n, '\n' ∉ natDigitsAux fuel n := by
  induction fuel with
  | zero => intro n; simp [natDigitsAux]
  | succ fuel ih =>
      intro n
      have hd : ∀ d, d < 10 → Char.ofNat (48 + d) ≠ '\n' := by decide
      rw [natDigitsAux]
      split
      · simpa using (hd n (by omega)).symm
      · intro hmem
        rcases List.mem_append.mp hmem with hmem | hmem
        · exact ih (n / 10) hmem
        · have : '\n' = Char.ofNat (48 + n % 10) := by simpa using hmem
          exact hd (n % 10) (Nat.mod_lt _ (by omega)) this.symm

theorem natDigitsAux_ne_nil (fuel n : Nat) : natDigitsAux (fuel + 1) n ≠ [] := by
  rw [natDigitsAux]
  split
  · simp
  · simp

theorem intToStr_no_newline (k : Int) : '\n' ∉ (intToStr k).data := by
  cases k with
  | ofNat n => exact natDigitsAux_no_newline _ n
  | negSucc n =>
      show '\n' ∉ ("-" ++ natToStr (n + 1)).data
      rw [String.data_append]
      intro hmem
      rcases List.mem_append.mp hmem with hmem | hmem
      · simp at hmem
      · exact natDigitsAux_no_newline _ (n + 1) hmem

/-! ### Lemmas about the split model -/

theorem sepChars_cons : sepChars = '\n' :: sepChars.tail := by decide

theorem isPrefixOf_sep_head {c : Char} {rest : List Char}
    (h : sepChars.isPrefixOf (c :: rest) = true) : c = '\n' := by
  have hp : sepChars <+: c :: rest := List.isPrefixOf_iff_prefix.mp h
  rw [sepChars_cons] at hp
  exact (List.cons_prefix_cons.mp hp).1.symm

theorem splitOnSepAux_ne_nil : ∀ (s acc : List Char), splitOnSepAux s acc ≠ []
  | [], acc => by simp [splitOnSepAux]
  | c :: rest, acc => by
      rw [splitOnSepAux]
      split
      · simp
      · exact splitOnSepAux_ne_nil rest (acc ++ [c])
termination_by s _ => s.length
decreasing_by simp [Nat.lt_succ_self]

theorem splitOnSepAux_no_newline :
    ∀ (s acc : List Char), '\n' ∉ s → splitOnSepAux s acc = [acc ++ s]
  | [], acc, _ => by simp [splitOnSepAux]
  | c :: rest, acc, h => by
      rw [splitOnSepAux]
      have hc : c ≠ '\n' := fun hc => h (hc ▸ List.mem_cons_self c rest)
      have hp : ¬ (sepChars.isPrefixOf (c :: rest) = true) :=
        fun htrue => hc (isPrefixOf_sep_head htrue)
      rw [if_neg hp,
        splitOnSepAux_no_newline rest (acc ++ [c])
          (fun hm => h (List.mem_cons_of_mem _ hm))]
      simp
termination_by s _ _ => s.length
decreasing_by simp [Nat.lt_succ_self]

theorem splitOnSepAux_sep (err : List Char) :
    ∀ (base acc : List Char), '\n' ∉ base →
      splitOnSepAux (base ++ (sepChars ++ err)) acc =
        (acc ++ base) :: splitOnSepAux err [] := by
  intro base
  induction base with
  | nil =>
      intro acc _
      have hcons : sepChars ++ err = '\n' :: (sepChars.tail ++ err) := by
        rw [sepChars_cons]; rfl
      rw [List.nil_append, hcons, splitOnSepAux]
      have hpre : sepChars.isPrefixOf ('\n' :: (sepChars.tail ++ err)) = true := by
        apply List.isPrefixOf_iff_prefix.mpr
        rw [← hcons]
        exact List.prefix_append sepChars err
      rw [if_pos hpre]
      have hdrop : (sepChars.tail ++ err).drop (sepChars.length - 1) = err := by
        have hlen : sepChars.length - 1 = sepChars.tail.length := by decide
        rw [hlen, List.drop_left]
      rw [hdrop]
      simp
  | cons c b ih =>
      intro acc h
      have hc : c ≠ '\n' := fun hc => h (hc ▸ List.mem_cons_self c b)
      rw [List.cons_append, splitOnSepAux]
      have hp : ¬ (sepChars.isPrefixOf (c :: (b ++ (sepChars ++ err))) = true) := by
        intro htrue
        exact hc (isPrefixOf_sep_head htrue)
      rw [if_neg hp, ih (acc ++ [c]) (fun hm => h (List.mem_cons_of_mem _ hm))]
      simp

theorem splitOnSep_no_newline (s : String) (h : '\n' ∉ s.data) :
    splitOnSep s = [s] := by
  unfold splitOnSep
  rw [splitOnSepAux_no_newline s.data [] h]
  rfl

theorem splitOnSep_sep (base err : String) (h : '\n' ∉ base.data) :
    splitOnSep (base ++ ("\n\nError details:\n" ++ err)) =
      base :: (splitOnSepAux err.data []).map String.mk := by
  unfold splitOnSep
  have hdata : (base ++ ("\n\nError details:\n" ++ err)).data =
      base.data ++ (sepChars ++ err.data) := by
    rw [String.data_append, String.data_append]; rfl
  rw [hdata, splitOnSepAux_sep err.data base.data [] h]
  rfl

/-! ### Lemmas about the inner-catch response -/

theorem invalidResult_no_sep (msg : String) (h : '\n' ∉ msg.data) :
    invalidResult msg =
      [ContentBlock.text "Mermaid diagram is invalid", ContentBlock.text msg] := by
  unfold invalidResult
  rw [splitOnSep_no_newline msg h]
  simp

theorem invalidResult_with_sep (base err : String) (h : '\n' ∉ base.data) :
    ∃ dd, invalidResult (base ++ ("\n\nError details:\n" ++ err)) =
      [ContentBlock.text "Mermaid diagram is invalid", ContentBlock.text base,
       ContentBlock.text dd] := by
  unfold invalidResult
  rw [splitOnSep_sep base err h]
  have hne : (splitOnSepAux err.data []).map String.mk ≠ [] := by
    simp [splitOnSepAux_ne_nil err.data []]
  refine ⟨"Detailed error output:\n" ++
    String.intercalate "\n" ((splitOnSepAux err.data []).map String.mk), ?_⟩
  simp [splitOnSepAux_ne_nil err.data []]

theorem invalidResult_isInvalidShape (msg : String) :
    isInvalidShape (invalidResult msg) := by
  unfold invalidResult isInvalidShape
  simp only []
  cases htail : (splitOnSep msg).tail with
  | nil =>
      refine ⟨(splitOnSep msg).headD "", Or.inl ?_⟩
      simp [htail]
  | cons p ps =>
      refine ⟨(splitOnSep msg).headD "",
        Or.inr ⟨"Detailed error output:\n" ++ String.intercalate "\n" (p :: ps), ?_⟩⟩
      simp [htail]

/-! ### Characterization of the event fold -/

theorem foldl_step_eq (f : Format) :
    ∀ (ev : List StreamEvent) (a : Accum),
      ev.foldl (step f) a =
        { outputChunks := a.outputChunks ++ (if f = Format.png then stdoutProj ev else [])
          svgContent := a.svgContent ++ (if f = Format.svg then (stdoutProj ev).flatten else [])
          errorOutput := a.errorOutput ++ stderrProj ev } := by
  intro ev
  induction ev with
  | nil =>
      intro a
      simp [stdoutProj, stderrProj, String.append_empty]
  | cons e rest ih =>
      intro a
      cases e with
      | stdoutData b =>
          cases f with
          | svg =>
              rw [List.foldl_cons, ih]
              simp [step, stdoutProj, stderrProj, List.append_assoc]
          | png =>
              rw [List.foldl_cons, ih]
              simp [step, stdoutProj, stderrProj, List.append_assoc]
      | stderrData t =>
          rw [List.foldl_cons, ih]
          simp [step, stdoutProj, stderrProj, String.append_assoc]

theorem runEvents_eq (f : Format) (ev : List StreamEvent) :
    runEvents f ev =
      { outputChunks := (if f = Format.png then stdoutProj ev else [])
        svgContent := (if f = Format.svg then (stdoutProj ev).flatten else [])
        errorOutput := stderrProj ev } := by
  unfold runEvents initAccum
  rw [foldl_step_eq]
  simp [String.empty_append]

/-! ### Evaluation lemmas for the handler -/

theorem validateMermaid_close_zero (d : String) (f : Format) (ev : List StreamEvent) :
    validateMermaid d f ⟨ev, Termination.close 0⟩ =
      [ContentBlock.text "Mermaid diagram is valid",
       ContentBlock.image (base64Encode (stdoutProj ev).flatten) (mimeOf f)] := by
  unfold validateMermaid
  rw [runEvents_eq]
  cases f with
  | svg => simp [processCompletion, validResult, mimeOf]
  | png => simp [processCompletion, validResult, mimeOf]

theorem validateMermaid_close_nonzero (d : String) (f : Format) (ev : List StreamEvent)
    (code : Int) (h : code ≠ 0) :
    validateMermaid d f ⟨ev, Termination.close code⟩ =
      invalidResult (closeErrorMessage code (stderrProj ev)) := by
  unfold validateMermaid
  rw [runEvents_eq]
  simp [processCompletion, h]

theorem validateMermaid_procError (d : String) (f : Format) (ev : List StreamEvent)
    (msg : String) :
    validateMermaid d f ⟨ev, Termination.procError msg⟩ =
      invalidResult (procErrorMessage msg (stderrProj ev)) := by
  unfold validateMermaid
  rw [runEvents_eq]
  simp [processCompletion]

theorem closeBase_no_newline (code : Int) :
    '\n' ∉ ("mermaid-cli process exited with code " ++ intToStr code).data := by
  rw [String.data_append]
  intro hmem
  rcases List.mem_append.mp hmem with hm | hm
  · revert hm; decide
  · exact intToStr_no_newline code hm

theorem closeBase_ne_empty (code : Int) :
    ("mermaid-cli process exited with code " ++ intToStr code) ≠ "" := by
  apply string_ne_empty_of_data_ne_nil
  rw [String.data_append]
  intro hdata
  rcases List.append_eq_nil.mp hdata with ⟨h1, _⟩
  revert h1; decide

/-! ### Claim theorems -/

/-- C1: whenever the subprocess closes with a nonzero exit code, the handler
answers with the Invalid outcome: the first block is the text "Mermaid
diagram is invalid", the second is a non-empty mainError text carrying the
exit code, and a third detail text block is present exactly when stderr
text was captured. -/
theorem nonzero_exit_invalid (d : String) (f : Format) (ev : List StreamEvent)
    (code : Int) (h : code ≠ 0) :
    ∃ rest : List ContentBlock,
      validateMermaid d f ⟨ev, Termination.close code⟩ =
        ContentBlock.text "Mermaid diagram is invalid" ::
          ContentBlock.text ("mermaid-cli process exited with code " ++ intToStr code) ::
          rest ∧
      ("mermaid-cli process exited with code " ++ intToStr code) ≠ "" ∧
      rest.length ≤ 1 ∧
      (rest ≠ [] ↔ (runEvents f ev).errorOutput ≠ "") ∧
      (∀ b ∈ rest, ∃ t, b = ContentBlock.text t) := by
  rw [validateMermaid_close_nonzero d f ev code h, runEvents_eq]
  by_cases herr : stderrProj ev = ""
  · refine ⟨[], ?_, closeBase_ne_empty code, by simp, by simp [herr], by simp⟩
    have hmsg : closeErrorMessage code (stderrProj ev) =
        "mermaid-cli process exited with code " ++ intToStr code := by
      unfold closeErrorMessage
      rw [if_pos herr, String.append_empty]
    rw [hmsg, invalidResult_no_sep _ (closeBase_no_newline code)]
  · have hmsg : closeErrorMessage code (stderrProj ev) =
        ("mermaid-cli process exited with code " ++ intToStr code) ++
          ("\n\nError details:\n" ++ stderrProj ev) := by
      unfold closeErrorMessage
      rw [if_neg herr, String.append_assoc]
    rcases invalidResult_with_sep _ (stderrProj ev) (closeBase_no_newline code)
      with ⟨dd, hdd⟩
    rw [hmsg, hdd]
    exact ⟨[ContentBlock.text dd], rfl, closeBase_ne_empty code, by simp,
      by simp [herr], by simp⟩

/-- C1 witness: a concrete call with exit code 1. -/
theorem nonzero_exit_invalid_witness :
    (1 : Int) ≠ 0 ∧
    ∃ rest : List ContentBlock,
      validateMermaid "this is not mermaid syntax \x7b\x7b\x7b" Format.png
          ⟨[], Termination.close 1⟩ =
        ContentBlock.text "Mermaid diagram is invalid" ::
          ContentBlock.text ("mermaid-cli process exited with code " ++ intToStr 1) ::
          rest ∧
      ("mermaid-cli process exited with code " ++ intToStr 1) ≠ "" ∧
      rest.length ≤ 1 ∧
      (rest ≠ [] ↔ (runEvents Format.png []).errorOutput ≠ "") ∧
      (∀ b ∈ rest, ∃ t, b = ContentBlock.text t) :=
  ⟨by decide,
   nonzero_exit_invalid "this is not mermaid syntax \x7b\x7b\x7b" Format.png [] 1
     (by decide)⟩

/-- C2: whenever the subprocess closes with exit code 0, the handler answers
with the Valid outcome: exactly a text confirmation block followed by an
image block whose data is the base64 encoding of the accumulated stdout
bytes, with the png MIME type for png and the svg MIME type for svg. -/
theorem exit_zero_valid (d : String) (f : Format) (ev : List StreamEvent) :
    validateMermaid d f ⟨ev, Termination.close 0⟩ =
      [ContentBlock.text "Mermaid diagram is valid",
       ContentBlock.image (base64Encode (stdoutProj ev).flatten) (mimeOf f)] ∧
    mimeOf Format.png = "image/png" ∧ mimeOf Format.svg = "image/svg+xml" :=
  ⟨validateMermaid_close_zero d f ev, rfl, rfl⟩

/-- C3 counterexample: on a spawn-level error the handler does not return
the single-text-block SystemError shape; at a concrete spawn failure the
response has two blocks and opens with the Invalid rejection text. -/
theorem spawn_error_not_system_shape :
    (validateMermaid "graph TD; A-->B;" Format.png
        ⟨[], Termination.procError "spawn npx ENOENT"⟩).length = 2 ∧
    (validateMermaid "graph TD; A-->B;" Format.png
        ⟨[], Termination.procError "spawn npx ENOENT"⟩).headD (ContentBlock.text "") =
      ContentBlock.text "Mermaid diagram is invalid" ∧
    ¬ isSystemErrorShape (validateMermaid "graph TD; A-->B;" Format.png
        ⟨[], Termination.procError "spawn npx ENOENT"⟩) := by
  have hmsg : procErrorMessage "spawn npx ENOENT" (stderrProj []) =
      "spawn npx ENOENT" := by
    unfold procErrorMessage stderrProj
    rw [if_pos rfl, String.append_empty]
  have heval : validateMermaid "graph TD; A-->B;" Format.png
      ⟨[], Termination.procError "spawn npx ENOENT"⟩ =
      [ContentBlock.text "Mermaid diagram is invalid",
       ContentBlock.text "spawn npx ENOENT"] := by
    rw [validateMermaid_procError, hmsg, invalidResult_no_sep _ (by decide)]
  rw [heval]
  refine ⟨rfl, rfl, ?_⟩
  rintro ⟨t, ht⟩
  simp at ht

/-- C3 amended: a spawn-level subprocess error is reported through the
Invalid shape, not the SystemError shape: the first block is the rejection
text, the second carries the spawn error message, and a detail block is
present exactly when stderr text was captured. -/
theorem spawn_error_invalid (d : String) (f : Format) (ev : List StreamEvent)
    (msg : String) (hmsg : '\n' ∉ msg.data) :
    ∃ rest : List ContentBlock,
      validateMermaid d f ⟨ev, Termination.procError msg⟩ =
        ContentBlock.text "Mermaid diagram is invalid" :: ContentBlock.text msg ::
          rest ∧
      rest.length ≤ 1 ∧
      (rest ≠ [] ↔ (runEvents f ev).errorOutput ≠ "") ∧
      (∀ b ∈ rest, ∃ t, b = ContentBlock.text t) ∧
      ¬ isSystemErrorShape (validateMermaid d f ⟨ev, Termination.procError msg⟩) := by
  rw [validateMermaid_procError d f ev msg, runEvents_eq]
  by_cases herr : stderrProj ev = ""
  · have hmsg2 : procErrorMessage msg (stderrProj ev) = msg := by
      unfold procErrorMessage
      rw [if_pos herr, String.append_empty]
    rw [hmsg2, invalidResult_no_sep _ hmsg]
    refine ⟨[], rfl, by simp, by simp [herr], by simp, ?_⟩
    rintro ⟨t, ht⟩
    simp at ht
  · have hmsg2 : procErrorMessage msg (stderrProj ev) =
        msg ++ ("\n\nError details:\n" ++ stderrProj ev) := by
      unfold procErrorMessage
      rw [if_neg herr]
    rcases invalidResult_with_sep msg (stderrProj ev) hmsg with ⟨dd, hdd⟩
    rw [hmsg2, hdd]
    refine ⟨[ContentBlock.text dd], rfl, by simp, by simp [herr], by simp, ?_⟩
    rintro ⟨t, ht⟩
    simp at ht

/-- C3 amended witness: a concrete spawn failure with no stderr output. -/
theorem spawn_error_invalid_witness :
    '\n' ∉ ("spawn npx ENOENT" : String).data ∧
    ∃ rest : List ContentBlock,
      validateMermaid "graph TD; A-->B;" Format.svg
          ⟨[], Termination.procError "spawn npx ENOENT"⟩ =
        ContentBlock.text "Mermaid diagram is invalid" ::
          ContentBlock.text "spawn npx ENOENT" :: rest ∧
      rest.length ≤ 1 ∧
      (rest ≠ [] ↔ (runEvents Format.svg []).errorOutput ≠ "") ∧
      (∀ b ∈ rest, ∃ t, b = ContentBlock.text t) ∧
      ¬ isSystemErrorShape (validateMermaid "graph TD; A-->B;" Format.svg
          ⟨[], Termination.procError "spawn npx ENOENT"⟩) :=
  ⟨by decide,
   spawn_error_invalid "graph TD; A-->B;" Format.svg [] "spawn npx ENOENT" (by decide)⟩

/-- C4: for every input and subprocess session the handler returns normally
with exactly one of the three outcome shapes; no other result is
possible. -/
theorem handler_outcome_trichotomy (d : String) (f : Format) (s : Session) :
    (isValidShape (validateMermaid d f s) ∨ isInvalidShape (validateMermaid d f s) ∨
      isSystemErrorShape (validateMermaid d f s)) ∧
    ¬ (isValidShape (validateMermaid d f s) ∧ isInvalidShape (validateMermaid d f s)) ∧
    ¬ (isValidShape (validateMermaid d f s) ∧
        isSystemErrorShape (validateMermaid d f s)) ∧
    ¬ (isInvalidShape (validateMermaid d f s) ∧
        isSystemErrorShape (validateMermaid d f s)) := by
  refine ⟨?_, ?_, ?_, ?_⟩
  · rcases s with ⟨ev, term⟩
    cases term with
    | close code =>
        by_cases hc : code = 0
        · subst hc
          left
          rw [validateMermaid_close_zero]
          exact ⟨_, _, rfl⟩
        · right; left
          rw [validateMermaid_close_nonzero d f ev code hc]
          exact invalidResult_isInvalidShape _
    | procError msg =>
        right; left
        rw [validateMermaid_procError]
        exact invalidResult_isInvalidShape _
  · rintro ⟨⟨data, mime, hv⟩, ⟨m, hi | ⟨dd, hi⟩⟩⟩ <;> rw [hv] at hi <;> simp at hi
  · rintro ⟨⟨data, mime, hv⟩, ⟨t, hs⟩⟩
    rw [hv] at hs
    simp at hs
  · rintro ⟨⟨m, hi | ⟨dd, hi⟩⟩, ⟨t, hs⟩⟩ <;> rw [hi] at hs <;> simp at hs

/-- C5: the engine invocation uses the literal token "-" for both the input
source and the output sink, passes the requested format behind the "-e"
flag, appends the transparent-background flag exactly for png, and is the
first action of every call, spawned through "npx". -/
theorem engine_invocation_args (d : String) :
    mmdcArgs Format.svg = ["@mermaid-js/mermaid-cli", "-i", "-", "-o", "-", "-e", "svg"] ∧
    mmdcArgs Format.png =
      ["@mermaid-js/mermaid-cli", "-i", "-", "-o", "-", "-e", "png", "-b",
       "transparent"] ∧
    (handlerTrace d Format.svg).head? = some (Action.spawn "npx" (mmdcArgs Format.svg)) ∧
    (handlerTrace d Format.png).head? = some (Action.spawn "npx" (mmdcArgs Format.png)) :=
  ⟨rfl, rfl, rfl, rfl⟩

/-- C6: the zod schema defaults an absent format to png, a call with the
defaulted format is the same call as one with explicit png, and only the
strings "svg" and "png" are accepted as format values. -/
theorem format_defaults_to_png (d : String) (sess : Session) (s : String)
    (fmt : Format) (h : parseFormat (some s) = some fmt) :
    parseFormat none = some Format.png ∧
    (∀ f0, parseFormat none = some f0 →
      validateMermaid d f0 sess = validateMermaid d Format.png sess) ∧
    (s = "svg" ∨ s = "png") := by
  refine ⟨rfl, ?_, ?_⟩
  · intro f0 hf0
    have hp : some Format.png = some f0 := hf0
    rw [← Option.some.inj hp]
  · by_cases h1 : s = "svg"
    · exact Or.inl h1
    · by_cases h2 : s = "png"
      · exact Or.inr h2
      · exfalso
        simp [parseFormat, h1, h2] at h

/-- C6 witness: the explicit value "png" parses to the png format. -/
theorem format_defaults_to_png_witness :
    parseFormat (some "png") = some Format.png ∧
    (parseFormat none = some Format.png ∧
     (∀ f0, parseFormat none = some f0 →
       validateMermaid "graph TD; A-->B;" f0 ⟨[], Termination.close 0⟩ =
         validateMermaid "graph TD; A-->B;" Format.png ⟨[], Termination.close 0⟩) ∧
     ("png" = "svg" ∨ "png" = "png")) :=
  ⟨by decide,
   format_defaults_to_png "graph TD; A-->B;" ⟨[], Termination.close 0⟩ "png"
     Format.png (by decide)⟩

/-- C7: every call writes the whole diagram payload to stdin and then closes
stdin, before awaiting process completion, and each of the write and the
close happens exactly once. -/
theorem payload_written_then_closed_once (d : String) (f : Format) :
    handlerTrace d f =
      [Action.spawn "npx" (mmdcArgs f), Action.stdinWrite d, Action.stdinEnd,
       Action.awaitProcess] ∧
    (handlerTrace d f).countP
      (fun a => match a with | Action.stdinWrite _ => true | _ => false) = 1 ∧
    (handlerTrace d f).countP
      (fun a => match a with | Action.stdinEnd => true | _ => false) = 1 := by
  refine ⟨rfl, ?_, ?_⟩ <;>
    simp [handlerTrace, List.countP_cons, List.countP_nil]

/-- C8: the handler's outcome classification is a function of the diagram,
the format, and the observed subprocess behaviour alone: two calls agreeing
on all three classify identically. -/
theorem classification_deterministic (d₁ d₂ : String) (f₁ f₂ : Format)
    (s₁ s₂ : Session) (hd : d₁ = d₂) (hf : f₁ = f₂) (hev : s₁.events = s₂.events)
    (ht : s₁.termination = s₂.termination) :
    classifyResult (validateMermaid d₁ f₁ s₁) =
      classifyResult (validateMermaid d₂ f₂ s₂) := by
  cases s₁
  cases s₂
  cases hd
  cases hf
  simp only at hev ht
  rw [hev, ht]

/-- C8 witness: two identical concrete calls classify identically. -/
theorem classification_deterministic_witness :
    classifyResult (validateMermaid "graph TD; A-->B;" Format.png
        ⟨[StreamEvent.stdoutData [137, 80]], Termination.close 0⟩) =
      classifyResult (validateMermaid "graph TD; A-->B;" Format.png
        ⟨[StreamEvent.stdoutData [137, 80]], Termination.close 0⟩) :=
  classification_deterministic "graph TD; A-->B;" "graph TD; A-->B;" Format.png
    Format.png ⟨[StreamEvent.stdoutData [137, 80]], Termination.close 0⟩
    ⟨[StreamEvent.stdoutData [137, 80]], Termination.close 0⟩ rfl rfl rfl rfl

/-- C9: the two channels are consumed independently: for every interleaving
of stdout and stderr data events, processing is total and the accumulated
state is determined by each channel's own projection alone, so any two
interleavings with the same per-channel contents — however the chunks of
one channel outpace the other — yield the same state. -/
theorem channels_drained_independently (f : Format) (ev₁ ev₂ : List StreamEvent)
    (hout : stdoutProj ev₁ = stdoutProj ev₂) (herr : stderrProj ev₁ = stderrProj ev₂) :
    runEvents f ev₁ = runEvents f ev₂ ∧
    (runEvents f ev₁).errorOutput = stderrProj ev₁ ∧
    (runEvents f ev₁).outputChunks = (if f = Format.png then stdoutProj ev₁ else []) ∧
    (runEvents f ev₁).svgContent =
      (if f = Format.svg then (stdoutProj ev₁).flatten else []) := by
  rw [runEvents_eq, runEvents_eq, hout, herr]
  simp

/-- C9 witness: two different interleavings of the same chunks, one with the
stderr chunk arriving first. -/
theorem channels_drained_independently_witness :
    stdoutProj [StreamEvent.stdoutData [1, 2], StreamEvent.stderrData "warn"] =
      stdoutProj [StreamEvent.stderrData "warn", StreamEvent.stdoutData [1, 2]] ∧
    stderrProj [StreamEvent.stdoutData [1, 2], StreamEvent.stderrData "warn"] =
      stderrProj [StreamEvent.stderrData "warn", StreamEvent.stdoutData [1, 2]] ∧
    (runEvents Format.png [StreamEvent.stdoutData [1, 2], StreamEvent.stderrData "warn"] =
      runEvents Format.png
        [StreamEvent.stderrData "warn", StreamEvent.stdoutData [1, 2]] ∧
     (runEvents Format.png
        [StreamEvent.stdoutData [1, 2], StreamEvent.stderrData "warn"]).errorOutput =
      stderrProj [StreamEvent.stdoutData [1, 2], StreamEvent.stderrData "warn"] ∧
     (runEvents Format.png
        [StreamEvent.stdoutData [1, 2], StreamEvent.stderrData "warn"]).outputChunks =
      (if Format.png = Format.png then
        stdoutProj [StreamEvent.stdoutData [1, 2], StreamEvent.stderrData "warn"]
       else []) ∧
     (runEvents Format.png
        [StreamEvent.stdoutData [1, 2], StreamEvent.stderrData "warn"]).svgContent =
      (if Format.png = Format.svg then
        (stdoutProj [StreamEvent.stdoutData [1, 2],
          StreamEvent.stderrData "warn"]).flatten
       else [])) :=
  ⟨rfl, rfl,
   channels_drained_independently Format.png
     [StreamEvent.stdoutData [1, 2], StreamEvent.stderrData "warn"]
     [StreamEvent.stderrData "warn", StreamEvent.stdoutData [1, 2]] rfl rfl⟩

/-- C10: a zero exit code with no stdout output still yields the Valid
outcome, whose image data is the empty base64 string — the handler checks
nothing about the accumulated output before declaring validity. -/
theorem empty_output_still_valid (d : String) (f : Format) (ev : List StreamEvent)
    (h : stdoutProj ev = []) :
    validateMermaid d f ⟨ev, Termination.close 0⟩ =
      [ContentBlock.text "Mermaid diagram is valid",
       ContentBlock.image "" (mimeOf f)] ∧
    base64Encode [] = "" := by
  refine ⟨?_, rfl⟩
  rw [validateMermaid_close_zero, h]
  rfl

/-- C10 witness: a session producing only stderr output and exit code 0. -/
theorem empty_output_still_valid_witness :
    stdoutProj [StreamEvent.stderrData "browser warning"] = [] ∧
    (validateMermaid "graph TD;" Format.png
        ⟨[StreamEvent.stderrData "browser warning"], Termination.close 0⟩ =
      [ContentBlock.text "Mermaid diagram is valid",
       ContentBlock.image "" (mimeOf Format.png)] ∧
     base64Encode [] = "") :=
  ⟨rfl,
   empty_output_still_valid "graph TD;" Format.png
     [StreamEvent.stderrData "browser warning"] rfl⟩

end MermaidValidator
